import Mathlib

/-!
Verification of the inboard startup/configuration routines.

The repository ships a startup module (configuration-path resolution,
worker-count calculation, logging configuration, pre-start script execution,
server dispatch) and an HTTP Basic-Authentication helper.  The authentication
helper (`inboard/app/utilities.py`) is embedded directly from its source.  The
startup module itself (`start.py` and `gunicorn_conf.py`) is not present in the
sources available here — only its test suite is — so those routines are
modelled from the specification document, as noted on each definition.
-/

namespace Inboard

/-- Modelled from the spec: `gunicorn_conf.py` is absent from the available
sources, so the worker-count calculator is modelled from the spec's algorithm:
"if explicit worker count given, use it (clamped by max, floored by minimum);
else compute `ceil(core_count * multiplier)`, clamp to
`[minimum, max_workers or +inf]`".  The spec's worked example
(core_count=4, multiplier=0.5, max_workers="1", web_concurrency="4" → 1)
fixes the order of the two clamps: the minimum floor is applied first and the
`max_workers` cap second, so an explicit max below the minimum wins.
`clamp_by_max` is the "max_workers or +inf" upper clamp. -/
def clamp_by_max (max_workers : Option Nat) (n : Nat) : Nat :=
  match max_workers with
  | some m => min n m
  | none => n

/-- Modelled from the spec: the per-core multiplier (a float in the original,
default 1.0) is modelled as a rational; optional environment values are
modelled as `Option Nat` (already parsed).  `minimum` is the configured floor,
default 2. -/
def calculate_workers (max_workers web_concurrency : Option Nat)
    (workers_per_core : Rat) (cores minimum : Nat) : Nat :=
  let candidate : Nat :=
    match web_concurrency with
    | some w => w
    | none => ((cores : Rat) * workers_per_core).ceil.toNat
  clamp_by_max max_workers (max candidate minimum)

/-- Modelled from the spec: the default worker floor is 2. -/
def workers_default_minimum : Nat := 2

/-- C1: `calculate_workers` follows the spec algorithm.  With an explicit
worker count, the result is that count floored by the minimum and clamped
above by `max_workers` when set; otherwise it is `ceil(cores * multiplier)`
clamped to `[minimum, max_workers or +inf]`.  In particular, for cores=4,
workers_per_core=0.5, max_workers=1, web_concurrency=4 the result is 1. -/
theorem calculate_workers_spec_algorithm :
    (∀ m0 w q c m, calculate_workers (some m0) (some w) q c m = min (max w m) m0) ∧
    (∀ w q c m, calculate_workers none (some w) q c m = max w m) ∧
    (∀ m0 q c m, calculate_workers (some m0) none q c m =
      min (max ((c : Rat) * q).ceil.toNat m) m0) ∧
    (∀ q c m, calculate_workers none none q c m = max ((c : Rat) * q).ceil.toNat m) ∧
    calculate_workers (some 1) (some 4) (1 / 2 : Rat) 4 workers_default_minimum = 1 := by
  refine ⟨fun m0 w q c m => rfl, fun w q c m => rfl, fun m0 q c m => rfl,
    fun q c m => rfl, rfl⟩

/-- C3 counterexample: with max_workers=1, web_concurrency=4, multiplier=0.5,
cores=4 and the default minimum 2, the result is 1, which is **not** at least
the configured minimum 2 — so the claim that the result is always at least the
minimum is false. -/
theorem calculate_workers_min_floor_cex :
    ¬ workers_default_minimum ≤
      calculate_workers (some 1) (some 4) (1 / 2 : Rat) 4 workers_default_minimum := by
  decide

/-- C3 (amended): the result is always at least `min minimum max_workers` when
`max_workers` is set, and at least `minimum` when it is unset; consequently it
is never less than 1 provided `max_workers`, when set, is at least 1 (and the
minimum is at least 1, as its default 2 is). -/
theorem calculate_workers_lower_bounds :
    (∀ mw wc q c m, min m (mw.getD m) ≤ calculate_workers mw wc q c m) ∧
    (∀ wc q c m, m ≤ calculate_workers none wc q c m) ∧
    (∀ mw wc q c m, 1 ≤ m → (∀ k, mw = some k → 1 ≤ k) →
      1 ≤ calculate_workers mw wc q c m) := by
  have base : ∀ (mw wc : Option Nat) (q : Rat) (c m : Nat),
      min m (mw.getD m) ≤ calculate_workers mw wc q c m := by
    intro mw wc q c m
    unfold calculate_workers clamp_by_max
    cases mw with
    | none => simp
    | some m0 =>
      simp only [Option.getD]
      exact min_le_min (le_max_right _ _) (le_refl m0)
  refine ⟨base, ?_, ?_⟩
  · intro wc q c m
    have h := base none wc q c m
    simpa using h
  · intro mw wc q c m hm hk
    have h := base mw wc q c m
    refine le_trans ?_ h
    cases mw with
    | none => simpa using hm
    | some k =>
      have hk1 : 1 ≤ k := hk k rfl
      simp only [Option.getD]
      exact le_min hm hk1

/-- C3 witness: the amended lower bound applied at a concrete input with its
hypotheses discharged. -/
theorem calculate_workers_lower_bounds_witness :
    1 ≤ calculate_workers (some 3) none (1 : Rat) 2 2 :=
  calculate_workers_lower_bounds.2.2 (some 3) none (1 : Rat) 2 2 (by decide)
    (fun k hk => by cases hk; decide)

/-- Modelled from the spec: the observable effect of the server dispatcher is
either one in-process server invocation (`uvicorn.run` with app module, host,
port, logging config dict, log level and reload flag) or one external-process
invocation (`subprocess.run` with an argument list). -/
inductive ServerCall (α : Type) where
  | uvicornRun (app_module host : String) (port : Nat) (log_config : α)
      (log_level : String) (reload : Bool)
  | subprocessRun (args : List String)
deriving DecidableEq

/-- Modelled from the spec: the environment variables the dispatcher reads,
each `none` when unset. -/
structure ServerEnv where
  host : Option String
  port : Option Nat
  log_level : Option String
  with_reload : Option Bool
  worker_class : Option String
deriving DecidableEq

/-- Modelled from the spec: an unrecognized process-manager mode is a fatal
name error. -/
inductive StartError where
  | nameError (msg : String)
deriving DecidableEq

/-- Modelled from the spec: `start.py` is absent from the available sources,
so the server dispatcher is modelled from the spec: mode "uvicorn" performs
exactly one in-process call with the resolved host (default "0.0.0.0"), port
(default 80), logging config dict, log level (default "info") and reload flag
(default false); mode "gunicorn" performs exactly one external-process call
with the exact argument list
`[manager, "-k", worker_class, "-c", config_path, app_module]` (worker class
default "uvicorn.workers.UvicornWorker"); any other mode raises a name error
before either call. -/
def start_server (α : Type) (process_manager app_module gunicorn_conf_path : String)
    (logging_conf_dict : α) (e : ServerEnv) :
    Except StartError (List (ServerCall α)) :=
  if process_manager = "uvicorn" then
    Except.ok [ServerCall.uvicornRun app_module (e.host.getD "0.0.0.0")
      (e.port.getD 80) logging_conf_dict (e.log_level.getD "info")
      (e.with_reload.getD false)]
  else if process_manager = "gunicorn" then
    Except.ok [ServerCall.subprocessRun [process_manager, "-k",
      e.worker_class.getD "uvicorn.workers.UvicornWorker", "-c",
      gunicorn_conf_path, app_module]]
  else
    Except.error (StartError.nameError
      "Process manager needs to be either uvicorn or gunicorn.")

/-- C2: mode "uvicorn" yields exactly one in-process call carrying the
resolved host, port, logging config dict, log level and reload flag (with
their defaults when unset); mode "gunicorn" yields exactly one
external-process call with the exact argument list
`[manager, "-k", worker_class, "-c", config_path, app_module]`; any other
mode string yields a name error and no call. -/
theorem start_server_dispatch :
    (∀ (α : Type) (am cp : String) (d : α) (e : ServerEnv),
      start_server α "uvicorn" am cp d e =
        Except.ok [ServerCall.uvicornRun am (e.host.getD "0.0.0.0")
          (e.port.getD 80) d (e.log_level.getD "info") (e.with_reload.getD false)]) ∧
    (∀ (α : Type) (am cp : String) (d : α) (e : ServerEnv),
      start_server α "gunicorn" am cp d e =
        Except.ok [ServerCall.subprocessRun ["gunicorn", "-k",
          e.worker_class.getD "uvicorn.workers.UvicornWorker", "-c", cp, am]]) ∧
    (∀ (α : Type) (pm am cp : String) (d : α) (e : ServerEnv),
      pm ≠ "uvicorn" → pm ≠ "gunicorn" →
      start_server α pm am cp d e =
        Except.error (StartError.nameError
          "Process manager needs to be either uvicorn or gunicorn.")) := by
  refine ⟨fun α am cp d e => rfl, fun α am cp d e => by simp [start_server], ?_⟩
  intro α pm am cp d e h1 h2
  simp [start_server, h1, h2]

/-- C2 witness: the dispatcher applied to the concrete unrecognized mode
"incorrect" raises the name error. -/
theorem start_server_dispatch_witness :
    start_server Nat "incorrect" "inboard.app.base.main:app" "inboard/gunicorn_conf.py" 0
      ⟨none, none, none, none, none⟩ =
      Except.error (StartError.nameError
        "Process manager needs to be either uvicorn or gunicorn.") :=
  start_server_dispatch.2.2 Nat "incorrect" "inboard.app.base.main:app"
    "inboard/gunicorn_conf.py" 0 ⟨none, none, none, none, none⟩
    (by decide) (by decide)

/-- Modelled from the spec: the shape of what logging-config loading found —
the source may be unresolvable, may lack the `LOGGING_CONFIG` attribute, or
may provide it as a mapping or as something else. -/
inductive LoadedAttr (α : Type) where
  | notMapping
  | mapping (cfg : α)
deriving DecidableEq

/-- Modelled from the spec: the three-way outcome of resolving a logging
configuration source. -/
inductive LoggingSource (α : Type) where
  | unresolvable
  | noAttr
  | withAttr (a : LoadedAttr α)
deriving DecidableEq

/-- Modelled from the spec: the three failure kinds of the logging
configurer. -/
inductive LoggingError where
  | importError
  | attributeError
  | typeError
deriving DecidableEq

/-- Modelled from the spec: `start.py` is absent from the available sources,
so the logging configurer is modelled from the spec over the abstract outcome
of source resolution: unresolvable source → import error; missing attribute →
attribute error; non-mapping attribute → type error; every failure is logged
at debug level with a descriptive message and re-raised; a mapping-typed
config is applied and returned.  The first component is the emitted debug-log
messages. -/
def configure_logging (α : Type) (logging_conf : String) (source : LoggingSource α) :
    List String × Except LoggingError α :=
  match source with
  | LoggingSource.unresolvable =>
      (["Error when configuring logging: Unable to import " ++ logging_conf ++ "."],
       Except.error LoggingError.importError)
  | LoggingSource.noAttr =>
      (["Error when configuring logging: No LOGGING_CONFIG in " ++ logging_conf ++ "."],
       Except.error LoggingError.attributeError)
  | LoggingSource.withAttr LoadedAttr.notMapping =>
      (["Error when configuring logging: LOGGING_CONFIG is not a dictionary instance."],
       Except.error LoggingError.typeError)
  | LoggingSource.withAttr (LoadedAttr.mapping cfg) =>
      (["Logging dict config loaded from " ++ logging_conf ++ "."], Except.ok cfg)

/-- C4: the logging configurer fails in exactly three ways — import error for
an unresolvable source, attribute error for a missing `LOGGING_CONFIG`, type
error for a non-mapping one; every failure emits a debug-level message and the
error is re-raised (the outcome is an error, never silently ok); it succeeds
exactly when the attribute is a mapping. -/
theorem configure_logging_failure_modes :
    (∀ (α : Type) (lc : String),
      (configure_logging α lc LoggingSource.unresolvable).2 =
        Except.error LoggingError.importError) ∧
    (∀ (α : Type) (lc : String),
      (configure_logging α lc LoggingSource.noAttr).2 =
        Except.error LoggingError.attributeError) ∧
    (∀ (α : Type) (lc : String),
      (configure_logging α lc (LoggingSource.withAttr LoadedAttr.notMapping)).2 =
        Except.error LoggingError.typeError) ∧
    (∀ (α : Type) (lc : String) (s : LoggingSource α) (e : LoggingError),
      (configure_logging α lc s).2 = Except.error e →
      (configure_logging α lc s).1 ≠ []) ∧
    (∀ (α : Type) (lc : String) (s : LoggingSource α),
      (configure_logging α lc s).2.isOk = true ↔
        ∃ cfg, s = LoggingSource.withAttr (LoadedAttr.mapping cfg)) := by
  refine ⟨fun α lc => rfl, fun α lc => rfl, fun α lc => rfl, ?_, ?_⟩
  · intro α lc s e _h
    cases s with
    | unresolvable => simp [configure_logging]
    | noAttr => simp [configure_logging]
    | withAttr a => cases a <;> simp [configure_logging]
  · intro α lc s
    cases s with
    | unresolvable => simp [configure_logging, Except.isOk, Except.toBool]
    | noAttr => simp [configure_logging, Except.isOk, Except.toBool]
    | withAttr a =>
      cases a with
      | notMapping => simp [configure_logging, Except.isOk, Except.toBool]
      | mapping cfg => simp [configure_logging, Except.isOk, Except.toBool]

/-- C4 witness: the failure-mode theorem applied at the concrete unresolvable
source, discharging its hypothesis. -/
theorem configure_logging_failure_modes_witness :
    (configure_logging Nat "no.module.here" LoggingSource.unresolvable).1 ≠ [] :=
  configure_logging_failure_modes.2.2.2.1 Nat "no.module.here"
    LoggingSource.unresolvable LoggingError.importError rfl

/-- Modelled from the spec: the two loading strategies of the logging
configurer. -/
inductive LoadStrategy where
  | file
  | moduleImport
deriving DecidableEq

/-- Modelled from the spec: the path separator used by the strategy
decision. -/
def path_sep : Char := '/'

/-- Membership test of a character in a string (Python's `in` on `str` for a
single-character needle), written over the character list so that it
evaluates by kernel reduction. -/
def str_contains_char (s : String) (c : Char) : Bool :=
  s.data.contains c

/-- Suffix test on strings (Python's `str.endswith`), written over the
character lists so that it evaluates by kernel reduction. -/
def str_ends_with (s suffix : String) : Bool :=
  suffix.data.isSuffixOf s.data

/-- Modelled from the spec: the expected file extension used by the strategy
decision. -/
def conf_file_extension : String := ".py"

/-- Modelled from the spec: the decision procedure of the logging configurer —
a string containing a path separator or ending in the expected `.py` extension
is loaded as a standalone file; otherwise it is imported as a dotted module
path. -/
def logging_conf_strategy (logging_conf : String) : LoadStrategy :=
  if str_contains_char logging_conf path_sep || str_ends_with logging_conf conf_file_extension then
    LoadStrategy.file
  else
    LoadStrategy.moduleImport

/-- C5: the file strategy is chosen exactly when the string contains a path
separator or ends in ".py"; in particular "/tmp/x.txt" (separator, wrong
extension) is treated as a file, while a dotted module path such as
"inboard.logging_conf" is imported and "tmp_log.py" is a file. -/
theorem logging_conf_strategy_spec :
    (∀ s : String, logging_conf_strategy s = LoadStrategy.file ↔
      (str_contains_char s path_sep = true ∨ str_ends_with s conf_file_extension = true)) ∧
    logging_conf_strategy "/tmp/x.txt" = LoadStrategy.file ∧
    logging_conf_strategy "inboard.logging_conf" = LoadStrategy.moduleImport ∧
    logging_conf_strategy "tmp_log.py" = LoadStrategy.file := by
  refine ⟨?_, by decide, by decide, by decide⟩
  intro s
  unfold logging_conf_strategy
  rcases h1 : str_contains_char s path_sep with _ | _ <;>
    rcases h2 : str_ends_with s conf_file_extension with _ | _ <;> simp [h1, h2]

/-- Modelled from the spec: the bundled default configuration file adjacent to
the startup code, for a symbolic config name. -/
def bundled_default_conf_path (conf_name : String) : String :=
  "inboard/" ++ conf_name ++ "_conf.py"

/-- Modelled from the spec: `start.py` is absent from the available sources,
so the config-path resolver is modelled from the spec: the resolved path is
the environment override, or the bundled default when the override is unset;
a missing file raises a file-not-found error, an existing file is returned
unchanged, with no side effects beyond the existence check (the model is a
pure function of the filesystem predicate `file_exists`). -/
def set_conf_path (conf_name : String) (env_override : Option String)
    (file_exists : String → Bool) : Except String String :=
  let conf_path := env_override.getD (bundled_default_conf_path conf_name)
  if file_exists conf_path then Except.ok conf_path
  else Except.error ("Unable to find " ++ conf_path)

/-- C6: whenever the resolved path (override, or bundled default when unset)
does not exist, `set_conf_path` fails with a missing-file error; whenever it
exists it returns exactly that path; in particular the bundled default
Gunicorn configuration resolves successfully whenever it is on disk. -/
theorem set_conf_path_spec :
    (∀ (cn : String) (ov : Option String) (fs : String → Bool),
      fs (ov.getD (bundled_default_conf_path cn)) = false →
      set_conf_path cn ov fs =
        Except.error ("Unable to find " ++ ov.getD (bundled_default_conf_path cn))) ∧
    (∀ (cn : String) (ov : Option String) (fs : String → Bool),
      fs (ov.getD (bundled_default_conf_path cn)) = true →
      set_conf_path cn ov fs = Except.ok (ov.getD (bundled_default_conf_path cn))) ∧
    (∀ fs : String → Bool, fs (bundled_default_conf_path "gunicorn") = true →
      set_conf_path "gunicorn" none fs = Except.ok "inboard/gunicorn_conf.py") := by
  refine ⟨?_, ?_, ?_⟩
  · intro cn ov fs h
    simp [set_conf_path, h]
  · intro cn ov fs h
    simp [set_conf_path, h]
  · intro fs h
    simp [set_conf_path, h]
    rfl

/-- C6 witness: the resolver applied with a concrete filesystem in which only
the bundled default exists — the default resolves, and a missing override
fails. -/
theorem set_conf_path_spec_witness :
    set_conf_path "gunicorn" none
        (fun p => p == "inboard/gunicorn_conf.py") =
      Except.ok "inboard/gunicorn_conf.py" ∧
    set_conf_path "gunicorn" (some "/no/file/here")
        (fun p => p == "inboard/gunicorn_conf.py") =
      Except.error "Unable to find /no/file/here" :=
  ⟨set_conf_path_spec.2.2 (fun p => p == "inboard/gunicorn_conf.py") (by decide),
   set_conf_path_spec.1 "gunicorn" (some "/no/file/here")
      (fun p => p == "inboard/gunicorn_conf.py") (by decide)⟩

/-- Modelled from the spec: `start.py` is absent from the available sources,
so the pre-start runner is modelled from the spec: if no script exists at the
configured path it logs and returns without spawning anything and without
failing; if a script exists, the interpreter is "python" for a `.py`
extension and "sh" for anything else, the script runs as a child process, and
a non-zero child exit propagates as a failure.  The result pairs the emitted
debug-log messages with either the spawned (interpreter, path) — `none` when
nothing was spawned — or the non-zero exit code as an error. -/
def run_pre_start_script (pre_start_path : String) (script_found : Bool)
    (child_exit : Nat) : List String × Except Nat (Option (String × String)) :=
  if script_found then
    let interpreter := if str_ends_with pre_start_path ".py" then "python" else "sh"
    if child_exit = 0 then
      (["Checking for pre-start script.",
        "Running pre-start script with " ++ interpreter ++ " " ++ pre_start_path ++ ".",
        "Ran pre-start script with " ++ interpreter ++ " " ++ pre_start_path ++ "."],
       Except.ok (some (interpreter, pre_start_path)))
    else
      (["Checking for pre-start script.",
        "Running pre-start script with " ++ interpreter ++ " " ++ pre_start_path ++ "."],
       Except.error child_exit)
  else
    (["Checking for pre-start script.", "No pre-start script found."],
     Except.ok none)

/-- C7: with no script at the path, the runner logs and returns with no child
process and no failure; with a script present, a `.py` extension runs under
"python" and any other extension under "sh"; a non-zero child exit propagates
as a failure carrying that exit code. -/
theorem run_pre_start_script_spec :
    (∀ (p : String) (n : Nat), run_pre_start_script p false n =
      (["Checking for pre-start script.", "No pre-start script found."],
       Except.ok none)) ∧
    (∀ p : String, str_ends_with p ".py" = true →
      (run_pre_start_script p true 0).2 = Except.ok (some ("python", p))) ∧
    (∀ p : String, str_ends_with p ".py" = false →
      (run_pre_start_script p true 0).2 = Except.ok (some ("sh", p))) ∧
    (∀ (p : String) (n : Nat), n ≠ 0 →
      (run_pre_start_script p true n).2 = Except.error n) := by
  refine ⟨fun p n => rfl, ?_, ?_, ?_⟩
  · intro p h
    simp [run_pre_start_script, h]
  · intro p h
    simp [run_pre_start_script, h]
  · intro p n h
    simp [run_pre_start_script, h]

/-- C7 witness: the runner applied to a concrete `.py` script, a concrete
shell script, and a concrete failing exit. -/
theorem run_pre_start_script_spec_witness :
    (run_pre_start_script "/app/inboard/app/prestart.py" true 0).2 =
      Except.ok (some ("python", "/app/inboard/app/prestart.py")) ∧
    (run_pre_start_script "/app/inboard/app/prestart.sh" true 0).2 =
      Except.ok (some ("sh", "/app/inboard/app/prestart.sh")) ∧
    (run_pre_start_script "/app/inboard/app/prestart.sh" true 1).2 =
      Except.error 1 :=
  ⟨run_pre_start_script_spec.2.1 "/app/inboard/app/prestart.py" (by decide),
   run_pre_start_script_spec.2.2.1 "/app/inboard/app/prestart.sh" (by decide),
   run_pre_start_script_spec.2.2.2 "/app/inboard/app/prestart.sh" 1 (by decide)⟩

/-- C8: `calculate_workers` is a pure function and is monotone in
`max_workers`: for fixed web_concurrency, multiplier, cores and minimum,
raising the cap (or removing it) never lowers the result, and the result never
exceeds the cap when one is set. -/
theorem calculate_workers_monotone_in_max :
    (∀ m1 m2 wc q c m, m1 ≤ m2 →
      calculate_workers (some m1) wc q c m ≤ calculate_workers (some m2) wc q c m) ∧
    (∀ m1 wc q c m,
      calculate_workers (some m1) wc q c m ≤ calculate_workers none wc q c m) ∧
    (∀ m1 wc q c m, calculate_workers (some m1) wc q c m ≤ m1) := by
  refine ⟨?_, ?_, ?_⟩
  · intro m1 m2 wc q c m h
    unfold calculate_workers clamp_by_max
    exact min_le_min (le_refl _) h
  · intro m1 wc q c m
    unfold calculate_workers clamp_by_max
    exact min_le_left _ _
  · intro m1 wc q c m
    unfold calculate_workers clamp_by_max
    exact min_le_right _ _

/-- C8 witness: monotonicity applied at a concrete pair of caps. -/
theorem calculate_workers_monotone_in_max_witness :
    calculate_workers (some 2) (some 5) (1 : Rat) 4 2 ≤
      calculate_workers (some 4) (some 5) (1 : Rat) 4 2 :=
  calculate_workers_monotone_in_max.1 2 4 (some 5) (1 : Rat) 4 2 (by decide)

/-- Embeds `secrets.compare_digest` as used in `inboard/app/utilities.py`:
a timing-safe comparison whose mathematical content on the ASCII strings it is
applied to is string equality. -/
def compare_digest (a b : String) : Bool :=
  a == b

/-- Default username checked by the authentication helpers
(`os.getenv("BASIC_AUTH_USERNAME", "test_username")`). -/
def default_basic_auth_username : String := "test_username"

/-- Default password checked by the authentication helpers
(`os.getenv("BASIC_AUTH_PASSWORD", "plunge-germane-tribal-pillar")`). -/
def default_basic_auth_password : String := "plunge-germane-tribal-pillar"

/-- Embeds the `HTTPException` raised by `basic_auth` in
`inboard/app/utilities.py`: status code 401, detail
"Incorrect username or password", and a `WWW-Authenticate` response header
with value "Basic". -/
structure HTTPErrorInfo where
  status_code : Nat
  detail : String
  www_authenticate : String
deriving DecidableEq

/-- Embeds `basic_auth` from `inboard/app/utilities.py`: compares the supplied
credentials against the environment-configured values (modelled as
`Option String`, `none` when the variable is unset) and returns the supplied
username on success, or the 401 error on any mismatch. -/
def basic_auth (username password : String)
    (env_username env_password : Option String) : Except HTTPErrorInfo String :=
  let correct_username :=
    compare_digest username (env_username.getD default_basic_auth_username)
  let correct_password :=
    compare_digest password (env_password.getD default_basic_auth_password)
  if !(correct_username && correct_password) then
    Except.error ⟨401, "Incorrect username or password", "Basic"⟩
  else
    Except.ok username

/-- C9: `basic_auth` succeeds with exactly the supplied username if and only
if both the supplied username and password match the configured values
(environment overrides, defaulting to "test_username" and
"plunge-germane-tribal-pillar"); on any mismatch the result is the 401 error
carrying the `WWW-Authenticate: Basic` header, and nothing else. -/
theorem basic_auth_spec :
    ∀ (u p : String) (eu ep : Option String),
      (∀ v, basic_auth u p eu ep = Except.ok v ↔
        (v = u ∧ u = eu.getD default_basic_auth_username ∧
          p = ep.getD default_basic_auth_password)) ∧
      (¬(u = eu.getD default_basic_auth_username ∧
          p = ep.getD default_basic_auth_password) →
        basic_auth u p eu ep =
          Except.error ⟨401, "Incorrect username or password", "Basic"⟩) := by
  intro u p eu ep
  unfold basic_auth compare_digest
  rcases hu : u == eu.getD default_basic_auth_username with _ | _ <;>
    rcases hp : p == ep.getD default_basic_auth_password with _ | _ <;>
    simp_all [beq_iff_eq] <;> tauto

/-- C9 witness: mismatching credentials produce exactly the 401 error with the
`Basic` challenge header. -/
theorem basic_auth_spec_witness :
    basic_auth "wrong_user" "wrong_password" none none =
      Except.error ⟨401, "Incorrect username or password", "Basic"⟩ :=
  (basic_auth_spec "wrong_user" "wrong_password" none none).2 (by decide)

/-- Embeds the whitespace test of Python's `str.split()` with no arguments
(the ASCII whitespace characters relevant to header values). -/
def is_py_space (c : Char) : Bool :=
  c = ' ' || c = '\t' || c = '\n' || c = '\r' || c = '\x0b' || c = '\x0c'

/-- Embeds Python's `str.split()` on a character list: splits on runs of
whitespace and never yields empty fields.  The accumulator holds the current
field reversed. -/
def py_split_aux : List Char → List Char → List String
  | [], acc => if acc.isEmpty then [] else [String.mk acc.reverse]
  | ch :: cs, acc =>
    if is_py_space ch then
      if acc.isEmpty then py_split_aux cs []
      else String.mk acc.reverse :: py_split_aux cs []
    else py_split_aux cs (ch :: acc)

/-- Embeds Python's `str.split()` with no arguments, as used by
`auth.split()` in `BasicAuth.authenticate`. -/
def py_split (s : String) : List String :=
  py_split_aux s.data []

/-- Embeds the base64 alphabet: the 6-bit value of a character, or `none` for
a character outside the alphabet. -/
def b64_char_value (ch : Char) : Option Nat :=
  if 'A' ≤ ch ∧ ch ≤ 'Z' then some (ch.toNat - 'A'.toNat)
  else if 'a' ≤ ch ∧ ch ≤ 'z' then some (ch.toNat - 'a'.toNat + 26)
  else if '0' ≤ ch ∧ ch ≤ '9' then some (ch.toNat - '0'.toNat + 52)
  else if ch = '+' then some 62
  else if ch = '/' then some 63
  else none

/-- Characters kept by the lax decoder of `base64.b64decode`: alphabet
characters and the padding character; everything else is discarded before
decoding. -/
def b64_keep (ch : Char) : Bool :=
  (b64_char_value ch).isSome || ch = '='

/-- Embeds the quad-by-quad decoding of `base64.b64decode`: each complete
four-character group yields three bytes; a group ending in one or two padding
characters must be the final group and yields two bytes or one; any other
shape (stray padding, leftover characters) is a padding error (`none`). -/
def decode_quads : List Char → Option (List Nat)
  | [] => some []
  | a :: b :: cc :: d :: rest =>
    match b64_char_value a, b64_char_value b with
    | some va, some vb =>
      if cc = '=' then
        if d = '=' ∧ rest = [] then some [va * 4 + vb / 16] else none
      else
        match b64_char_value cc with
        | some vc =>
          if d = '=' then
            if rest = [] then some [va * 4 + vb / 16, vb % 16 * 16 + vc / 4]
            else none
          else
            match b64_char_value d with
            | some vd =>
              match decode_quads rest with
              | some bytes =>
                some ((va * 4 + vb / 16) :: (vb % 16 * 16 + vc / 4) ::
                  (vc % 4 * 64 + vd) :: bytes)
              | none => none
            | none => none
        | none => none
    | _, _ => none
  | _ => none

/-- Embeds `base64.b64decode` on a `str` argument as called in
`BasicAuth.authenticate`: the string is first encoded as ASCII (failing on any
non-ASCII character), characters outside the alphabet are discarded, and the
remaining data must form well-padded four-character groups. -/
def b64decode (s : String) : Option (List Nat) :=
  if s.data.all (fun ch => ch.toNat < 128) then
    decode_quads (s.data.filter b64_keep)
  else
    none

/-- Embeds `bytes.decode("ascii")`: succeeds exactly when every byte is below
128, yielding the corresponding string. -/
def ascii_decode (bytes : List Nat) : Option String :=
  if bytes.all (fun b => b < 128) then some (String.mk (bytes.map Char.ofNat))
  else none

/-- Embeds `str.partition(":")` as used on the decoded credentials: splits at
the first colon, yielding the part before it and the part after it; with no
colon the whole string is the first part and the second is empty. -/
def py_partition_colon (s : String) : String × String :=
  match s.splitOn ":" with
  | [] => (s, "")
  | [x] => (x, "")
  | x :: rest => (x, String.intercalate ":" rest)

/-- Embeds the `try` block of `BasicAuth.authenticate`: split the header value
on whitespace into exactly a scheme and a credentials token, base64-decode the
credentials, decode the bytes as ASCII, and partition at the first colon into
username and password; `none` models the caught
`ValueError`/`binascii.Error`/`UnicodeDecodeError`. -/
def parse_basic_credentials (auth : String) : Option (String × String) :=
  match py_split auth with
  | [_scheme, credentials] =>
    match b64decode credentials with
    | some bytes =>
      match ascii_decode bytes with
      | some decoded => some (py_partition_colon decoded)
      | none => none
    | none => none
  | _ => none

/-- Embeds the result of `BasicAuth.authenticate`: `unauthenticated` models
the `None` return, `authenticated` models the
`(AuthCredentials(["authenticated"]), SimpleUser(username))` tuple. -/
inductive AuthOutcome where
  | unauthenticated
  | authenticated (scopes : List String) (username : String)
deriving DecidableEq

/-- Lower-casing of a header name, written over the character list so that it
evaluates by kernel reduction. -/
def header_norm (s : String) : String :=
  String.mk (s.data.map Char.toLower)

/-- Embeds the case-insensitive header lookup of Starlette's `Headers` used by
`"Authorization" in request.headers` and `request.headers["Authorization"]`. -/
def headers_lookup (headers : List (String × String)) (name : String) : Option String :=
  match headers.find? (fun kv => header_norm kv.1 == header_norm name) with
  | some kv => some kv.2
  | none => none

/-- Embeds `BasicAuth.authenticate` from `inboard/app/utilities.py`: with no
`Authorization` header the connection is unauthenticated (`None` returned, no
error); otherwise the header is parsed and the credentials compared against
the environment-configured values, raising `AuthenticationError` (modelled as
`Except.error` with the exception message) on a parse failure or mismatch. -/
def BasicAuth_authenticate (headers : List (String × String))
    (env_username env_password : Option String) : Except String AuthOutcome :=
  match headers_lookup headers "Authorization" with
  | none => Except.ok AuthOutcome.unauthenticated
  | some auth =>
    match parse_basic_credentials auth with
    | none => Except.error "Unable to parse basic auth credentials"
    | some (username, password) =>
      let correct_username :=
        compare_digest username (env_username.getD default_basic_auth_username)
      let correct_password :=
        compare_digest password (env_password.getD default_basic_auth_password)
      if !(correct_username && correct_password) then
        Except.error "Invalid basic auth credentials"
      else
        Except.ok (AuthOutcome.authenticated ["authenticated"] username)

/-- C10: `BasicAuth.authenticate` returns the unauthenticated outcome, without
raising, for every request whose headers lack an `Authorization` key; and
whenever it raises an `AuthenticationError`, an `Authorization` header was
present and either its value failed to parse (wrong token count, invalid
base64, or non-ASCII decoding — all the `none` cases of the parse) or the
parsed credentials do not match the configured values. -/
theorem BasicAuth_authenticate_spec :
    (∀ (headers : List (String × String)) (eu ep : Option String),
      headers_lookup headers "Authorization" = none →
      BasicAuth_authenticate headers eu ep = Except.ok AuthOutcome.unauthenticated) ∧
    (∀ (headers : List (String × String)) (eu ep : Option String) (msg : String),
      BasicAuth_authenticate headers eu ep = Except.error msg →
      ∃ auth, headers_lookup headers "Authorization" = some auth ∧
        (parse_basic_credentials auth = none ∨
         ∃ u p, parse_basic_credentials auth = some (u, p) ∧
           ¬(u = eu.getD default_basic_auth_username ∧
             p = ep.getD default_basic_auth_password))) := by
  constructor
  · intro headers eu ep h
    unfold BasicAuth_authenticate
    rw [h]
  · intro headers eu ep msg h
    unfold BasicAuth_authenticate at h
    split at h
    · exact absurd h (by simp)
    · rename_i auth hl
      refine ⟨auth, hl, ?_⟩
      split at h
      · rename_i hp
        exact Or.inl hp
      · rename_i u p hp
        refine Or.inr ⟨u, p, hp, ?_⟩
        rintro ⟨h1, h2⟩
        simp only [compare_digest] at h
        rw [h1, h2] at h
        simp at h

/-- C10 witness: the absent-header case at the empty header list, and the
raising case at a concrete header whose value has the wrong token count. -/
theorem BasicAuth_authenticate_spec_witness :
    BasicAuth_authenticate [] none none = Except.ok AuthOutcome.unauthenticated ∧
    ∃ auth, headers_lookup [("Authorization", "badvalue")] "Authorization" = some auth ∧
      (parse_basic_credentials auth = none ∨
       ∃ u p, parse_basic_credentials auth = some (u, p) ∧
         ¬(u = default_basic_auth_username ∧ p = default_basic_auth_password)) :=
  ⟨BasicAuth_authenticate_spec.1 [] none none rfl,
   BasicAuth_authenticate_spec.2 [("Authorization", "badvalue")] none none
     "Unable to parse basic auth credentials" rfl⟩

end Inboard
